import Mathlib

/-!
Shallow embedding of the curtain fabric calculator's layout optimizers.

The repository contains four textually distinct copies of
`findOptimalSolution`; each is embedded below as a pure function over ℚ
(JS numbers idealised as exact rationals):

* `findOptimalSolutionR` — the roll-length-aware variant
  (src/app.js:183, src/app.js:1464, src/unnamed/part_001:193):
  `netWidth = round1(curtainWidth / parts)`, folds 180/80 mm,
  `panelsPerRoll = floor(5000 / curtainHeight)`,
  part counts capped by `min(rolls*panelsPerRoll, ceil(W/fw)+5, 30)`.
* `findOptimalSolutionA` — the integer-formula variant
  (src/unnamed/part_000:174, src/app.js:1024):
  `netWidth = (W + 2*180 + (parts-2)*80) / parts`, rejected unless an
  integer; fabric width compared in cm (`fabricWidthMm / 10`).
* `findOptimalSolutionB` — src/unnamed/part_001:1788:
  `netWidth = round1(W / parts)`, folds 180/80 mm, part counts up to
  `max(availableRolls, min(ceil(W/fw)+5, 30))` with `parts ≤ rolls`.
* `findOptimalSolutionC` — src/unnamed/part_001:998: like B but
  `netWidth = round1((W - 2*1800 - (parts-2)*800) / parts)`,
  folds 1800/800 mm.

The brute-force minimum-waste selection loop (strict `<`, first seen
wins ties) is factored out as `runSearch` over an explicit candidate
list built in the source's iteration order: fabric widths in descending
catalog order, part counts ascending.
-/

namespace Curtain

/-- The fixed fabric catalog, in the source's descending iteration order (mm). -/
def fabricWidths : List ℕ := [2100, 2000, 1900, 1500]

/-- Roll inventory: available roll count for each catalog width. -/
structure Inventory where
  n2100 : ℕ
  n2000 : ℕ
  n1900 : ℕ
  n1500 : ℕ
deriving DecidableEq, Repr

/-- Look up the roll count for a fabric width (0 for non-catalog widths). -/
def Inventory.get (inv : Inventory) (w : ℕ) : ℕ :=
  if w = 2100 then inv.n2100
  else if w = 2000 then inv.n2000
  else if w = 1900 then inv.n1900
  else if w = 1500 then inv.n1500
  else 0

/-- Result record of the roll-length-aware variant (src/app.js:271-280). -/
structure SolutionR where
  fabricWidth : ℕ
  parts : ℕ
  netWidth : ℚ
  outerPanelWidth : ℚ
  innerPanelWidth : ℚ
  waste : ℚ
  rollsNeeded : ℤ
  panelsPerRoll : ℤ
deriving DecidableEq, Repr

/-- Result record of the plain variants (src/unnamed/part_000:221-228,
src/unnamed/part_001:1066-1073, src/unnamed/part_001:1858-1865). -/
structure Solution where
  fabricWidth : ℕ
  parts : ℕ
  netWidth : ℚ
  outerPanelWidth : ℚ
  innerPanelWidth : ℚ
  waste : ℚ
deriving DecidableEq, Repr

/-- JS `Math.round(q * 10) / 10`: round to one decimal place,
halves toward positive infinity. -/
def round1 (q : ℚ) : ℚ := (⌊q * 10 + 1 / 2⌋ : ℚ) / 10

/-- Raw net width of the roll-length-aware variant (src/app.js:240). -/
def netWidthR (W : ℚ) (p : ℕ) : ℚ := W / p

/-- Net width of the integer-formula variant (src/unnamed/part_000:198). -/
def netWidthA (W : ℚ) (p : ℕ) : ℚ := (W + 2 * 180 + ((p : ℚ) - 2) * 80) / p

/-- Raw net width of the part_001:1788 variant (src/unnamed/part_001:1827). -/
def netWidthB (W : ℚ) (p : ℕ) : ℚ := W / p

/-- Raw net width of the part_001:998 variant (src/unnamed/part_001:1035). -/
def netWidthC (W : ℚ) (p : ℕ) : ℚ := (W - 2 * 1800 - ((p : ℚ) - 2) * 800) / p

/-- Loop body of the roll-length-aware variant for one candidate
`(fabricWidth, parts)` (src/app.js:226-282). -/
def evalR (W H : ℚ) (inv : Inventory) (c : ℕ × ℕ) : Option SolutionR :=
  let fw := c.1
  let p := c.2
  let ppr : ℤ := ⌊(5000 : ℚ) / H⌋
  let rollsNeeded : ℤ := ⌈(p : ℚ) / (ppr : ℚ)⌉
  if (inv.get fw : ℤ) < rollsNeeded then none
  else
    let nw0 := netWidthR W p
    if nw0 ≤ 0 then none
    else
      let nw := round1 nw0
      let outer := nw + 180
      let inner := nw + 80
      if (fw : ℚ) < outer ∨ (fw : ℚ) < inner then none
      else
        let waste := 2 * ((fw : ℚ) - outer) + ((p : ℚ) - 2) * ((fw : ℚ) - inner)
        if waste < 0 then none
        else some ⟨fw, p, nw, outer, inner, waste, rollsNeeded, ppr⟩

/-- Loop body of the integer-formula variant for one candidate
(src/unnamed/part_000:195-229); fabric width is compared in cm. -/
def evalA (W : ℚ) (c : ℕ × ℕ) : Option Solution :=
  let fw := c.1
  let p := c.2
  let fwCm : ℚ := (fw : ℚ) / 10
  let nw := netWidthA W p
  if nw.den ≠ 1 then none
  else
    let outer := nw + 180
    let inner := nw + 80
    if fwCm < outer ∨ fwCm < inner then none
    else
      let waste := 2 * (fwCm - outer) + ((p : ℚ) - 2) * (fwCm - inner)
      some ⟨fw, p, nw, outer, inner, waste⟩

/-- Loop body of the part_001:1788 variant for one candidate
(src/unnamed/part_001:1816-1867). -/
def evalB (W : ℚ) (inv : Inventory) (c : ℕ × ℕ) : Option Solution :=
  let fw := c.1
  let p := c.2
  if inv.get fw < p then none
  else
    let nw0 := netWidthB W p
    if nw0 ≤ 0 then none
    else
      let nw := round1 nw0
      let outer := nw + 180
      let inner := nw + 80
      if (fw : ℚ) < outer ∨ (fw : ℚ) < inner then none
      else
        let waste := 2 * ((fw : ℚ) - outer) + ((p : ℚ) - 2) * ((fw : ℚ) - inner)
        if waste < 0 then none
        else some ⟨fw, p, nw, outer, inner, waste⟩

/-- Loop body of the part_001:998 variant for one candidate
(src/unnamed/part_001:1026-1075); folds are 1800/800 mm. -/
def evalC (W : ℚ) (inv : Inventory) (c : ℕ × ℕ) : Option Solution :=
  let fw := c.1
  let p := c.2
  if inv.get fw < p then none
  else
    let nw0 := netWidthC W p
    if nw0 ≤ 0 then none
    else
      let nw := round1 nw0
      let outer := nw + 1800
      let inner := nw + 800
      if (fw : ℚ) < outer ∨ (fw : ℚ) < inner then none
      else
        let waste := 2 * ((fw : ℚ) - outer) + ((p : ℚ) - 2) * ((fw : ℚ) - inner)
        if waste < 0 then none
        else some ⟨fw, p, nw, outer, inner, waste⟩

/-- Part counts `2, 3, ..., m` tried by the inner loops (empty for `m < 2`). -/
def partsList (m : ℤ) : List ℕ := (List.range (m - 1).toNat).map (fun k => k + 2)

/-- Candidates contributed by one fabric width in the roll-length-aware
variant, including its width-level skips (src/app.js:200-226). -/
def widthCandsR (W H : ℚ) (inv : Inventory) (fw : ℕ) : List (ℕ × ℕ) :=
  if inv.get fw = 0 then []
  else
    let ppr : ℤ := ⌊(5000 : ℚ) / H⌋
    if ppr < 1 then []
    else
      let maxParts : ℤ := min ((inv.get fw : ℤ) * ppr) (min (⌈W / (fw : ℚ)⌉ + 5) 30)
      (partsList maxParts).map (fun p => (fw, p))

/-- Candidates contributed by one fabric width in the integer-formula
variant (src/unnamed/part_000:183-195). -/
def widthCandsA (inv : Inventory) (fw : ℕ) : List (ℕ × ℕ) :=
  if inv.get fw = 0 then []
  else (partsList (inv.get fw : ℤ)).map (fun p => (fw, p))

/-- Candidates contributed by one fabric width in the part_001:1788 and
part_001:998 variants (src/unnamed/part_001:1801-1816). -/
def widthCandsB (W : ℚ) (inv : Inventory) (fw : ℕ) : List (ℕ × ℕ) :=
  if inv.get fw = 0 then []
  else
    let maxParts : ℤ := max (inv.get fw : ℤ) (min (⌈W / (fw : ℚ)⌉ + 5) 30)
    (partsList maxParts).map (fun p => (fw, p))

/-- All candidates of the roll-length-aware variant, in the source's
iteration order: widths 2100, 2000, 1900, 1500; part counts ascending. -/
def candidatesR (W H : ℚ) (inv : Inventory) : List (ℕ × ℕ) :=
  widthCandsR W H inv 2100 ++ widthCandsR W H inv 2000 ++
    widthCandsR W H inv 1900 ++ widthCandsR W H inv 1500

/-- All candidates of the integer-formula variant, in iteration order. -/
def candidatesA (inv : Inventory) : List (ℕ × ℕ) :=
  widthCandsA inv 2100 ++ widthCandsA inv 2000 ++
    widthCandsA inv 1900 ++ widthCandsA inv 1500

/-- All candidates of the part_001:1788 / part_001:998 variants, in
iteration order. -/
def candidatesB (W : ℚ) (inv : Inventory) : List (ℕ × ℕ) :=
  widthCandsB W inv 2100 ++ widthCandsB W inv 2000 ++
    widthCandsB W inv 1900 ++ widthCandsB W inv 1500

/-- One step of the minimum-waste tracking: keep the previous best unless
the new candidate is valid and has strictly smaller waste
(src/app.js:269-281, `waste < minWaste`). -/
def searchStep {C S : Type} (wasteOf : S → ℚ) (eval : C → Option S)
    (best : Option S) (c : C) : Option S :=
  match eval c with
  | none => best
  | some s =>
    match best with
    | none => some s
    | some b => if wasteOf s < wasteOf b then some s else some b

/-- The brute-force search: fold the candidate list through `searchStep`
starting from no solution. -/
def runSearch {C S : Type} (wasteOf : S → ℚ) (eval : C → Option S)
    (cands : List C) : Option S :=
  cands.foldl (searchStep wasteOf eval) none

/-- The roll-length-aware optimizer (src/app.js:183-286). -/
def findOptimalSolutionR (W H : ℚ) (inv : Inventory) : Option SolutionR :=
  runSearch SolutionR.waste (evalR W H inv) (candidatesR W H inv)

/-- The integer-formula optimizer (src/unnamed/part_000:174-234). -/
def findOptimalSolutionA (W : ℚ) (inv : Inventory) : Option Solution :=
  runSearch Solution.waste (evalA W) (candidatesA inv)

/-- The part_001:1788 optimizer. -/
def findOptimalSolutionB (W : ℚ) (inv : Inventory) : Option Solution :=
  runSearch Solution.waste (evalB W inv) (candidatesB W inv)

/-- The part_001:998 optimizer. -/
def findOptimalSolutionC (W : ℚ) (inv : Inventory) : Option Solution :=
  runSearch Solution.waste (evalC W inv) (candidatesB W inv)

/-- Net-width convention (a), stated from the spec's words for comparison:
`netWidth = (curtainWidth + 2*outerFold + (p-2)*innerFold) / p`. -/
def specNetConvA (W : ℚ) (p : ℕ) (fo fi : ℚ) : ℚ :=
  (W + 2 * fo + ((p : ℚ) - 2) * fi) / p

/-- Net-width convention (b), stated from the spec's words for comparison:
`netWidth = curtainWidth / p`, rounded to one decimal place. -/
def specNetConvB (W : ℚ) (p : ℕ) : ℚ := round1 (W / p)

/-- The additional net-width convention actually used by the part_001:998
variant: `netWidth = (curtainWidth - 2*outerFold - (p-2)*innerFold) / p`,
rounded to one decimal place. -/
def specNetConvC (W : ℚ) (p : ℕ) (fo fi : ℚ) : ℚ :=
  round1 ((W - 2 * fo - ((p : ℚ) - 2) * fi) / p)

/-- Result of `findOptimalSolutionR 4000 1000 ⟨2, 0, 0, 0⟩`. -/
def solR0 : SolutionR := ⟨2100, 3, 13333 / 10, 15133 / 10, 14133 / 10, 18601 / 10, 1, 5⟩

/-- Evaluation of the later candidate (2100, 4) on the same input. -/
def solR1 : SolutionR := ⟨2100, 4, 1000, 1180, 1080, 3880, 1, 5⟩

/-- Result of `findOptimalSolutionA (-400) ⟨2, 0, 0, 0⟩` (and of
`findOptimalSolutionA (-400) ⟨4, 0, 0, 0⟩`). -/
def solA0 : Solution := ⟨2100, 2, -20, 160, 60, 100⟩

/-- Evaluation of the later candidate (2100, 4) for `findOptimalSolutionA`
at curtain width -400. -/
def solA1 : Solution := ⟨2100, 4, 30, 210, 110, 200⟩

/-- Result of `findOptimalSolutionB 3000 ⟨2, 0, 0, 0⟩`. -/
def solB0 : Solution := ⟨2100, 2, 1500, 1680, 1580, 840⟩

/-- Result of `findOptimalSolutionC 4000 ⟨2, 0, 0, 0⟩`. -/
def solC0 : Solution := ⟨2100, 2, 200, 2000, 1000, 200⟩

/-- Result of `findOptimalSolutionC 36000 ⟨31, 0, 0, 0⟩`: 31 panels. -/
def solC31 : Solution := ⟨2100, 31, 1484 / 5, 10484 / 5, 5484 / 5, 145496 / 5⟩

section SearchLemmas

variable {C S : Type} (wasteOf : S → ℚ) (eval : C → Option S)

lemma searchStep_isSome (acc : Option S) (c : C)
    (h : acc.isSome ∨ (eval c).isSome) :
    (searchStep wasteOf eval acc c).isSome := by
  rcases hev : eval c with _ | u
  · rcases h with h | h
    · simpa [searchStep, hev] using h
    · rw [hev] at h; simp at h
  · cases acc with
    | none => simp [searchStep, hev]
    | some b => by_cases hlt : wasteOf u < wasteOf b <;> simp [searchStep, hev, hlt]

lemma foldl_searchStep_isSome :
    ∀ (cands : List C) (acc : Option S),
      (acc.isSome ∨ ∃ c ∈ cands, (eval c).isSome) →
      (cands.foldl (searchStep wasteOf eval) acc).isSome := by
  intro cands
  induction cands with
  | nil =>
    intro acc h
    simpa using h.resolve_right (by simp)
  | cons c rest ih =>
    intro acc h
    rw [List.foldl_cons]
    apply ih
    rcases h with h | ⟨c', hc', hsome⟩
    · exact Or.inl (searchStep_isSome wasteOf eval acc c (Or.inl h))
    · rcases List.mem_cons.1 hc' with rfl | hmem
      · exact Or.inl (searchStep_isSome wasteOf eval acc c' (Or.inr hsome))
      · exact Or.inr ⟨c', hmem, hsome⟩

lemma foldl_searchStep_min :
    ∀ (cands : List C) (acc : Option S) (s : S),
      cands.foldl (searchStep wasteOf eval) acc = some s →
      (∀ t, acc = some t → wasteOf s ≤ wasteOf t) ∧
      (∀ c ∈ cands, ∀ t, eval c = some t → wasteOf s ≤ wasteOf t) := by
  intro cands
  induction cands with
  | nil =>
    intro acc s h
    rw [List.foldl_nil] at h
    refine ⟨fun t ht => ?_, by simp⟩
    rw [h] at ht
    obtain rfl := Option.some.inj ht
    exact le_refl _
  | cons c rest ih =>
    intro acc s h
    rw [List.foldl_cons] at h
    rcases hev : eval c with _ | u
    · rw [show searchStep wasteOf eval acc c = acc from by simp [searchStep, hev]] at h
      obtain ⟨h1, h2⟩ := ih acc s h
      refine ⟨h1, fun c' hc' t ht => ?_⟩
      rcases List.mem_cons.1 hc' with rfl | hmem
      · rw [hev] at ht; cases ht
      · exact h2 c' hmem t ht
    · cases acc with
      | none =>
        rw [show searchStep wasteOf eval none c = some u from by simp [searchStep, hev]] at h
        obtain ⟨h1, h2⟩ := ih (some u) s h
        refine ⟨fun t ht => Option.noConfusion ht, fun c' hc' t ht => ?_⟩
        rcases List.mem_cons.1 hc' with rfl | hmem
        · rw [hev] at ht
          obtain rfl := Option.some.inj ht
          exact h1 _ rfl
        · exact h2 c' hmem t ht
      | some b =>
        by_cases hlt : wasteOf u < wasteOf b
        · rw [show searchStep wasteOf eval (some b) c = some u from by
            simp [searchStep, hev, hlt]] at h
          obtain ⟨h1, h2⟩ := ih (some u) s h
          have hsu : wasteOf s ≤ wasteOf u := h1 _ rfl
          refine ⟨fun t ht => ?_, fun c' hc' t ht => ?_⟩
          · obtain rfl := Option.some.inj ht
            exact le_trans hsu (le_of_lt hlt)
          · rcases List.mem_cons.1 hc' with rfl | hmem
            · rw [hev] at ht
              obtain rfl := Option.some.inj ht
              exact hsu
            · exact h2 c' hmem t ht
        · rw [show searchStep wasteOf eval (some b) c = some b from by
            simp [searchStep, hev, hlt]] at h
          obtain ⟨h1, h2⟩ := ih (some b) s h
          have hsb : wasteOf s ≤ wasteOf b := h1 _ rfl
          refine ⟨fun t ht => ?_, fun c' hc' t ht => ?_⟩
          · obtain rfl := Option.some.inj ht
            exact hsb
          · rcases List.mem_cons.1 hc' with rfl | hmem
            · rw [hev] at ht
              obtain rfl := Option.some.inj ht
              exact le_trans hsb (not_lt.1 hlt)
            · exact h2 c' hmem t ht

lemma foldl_searchStep_first_some :
    ∀ (cands : List C) (b s : S),
      cands.foldl (searchStep wasteOf eval) (some b) = some s →
      s = b ∨
      (wasteOf s < wasteOf b ∧ ∃ l1 c l2, cands = l1 ++ c :: l2 ∧ eval c = some s ∧
        ∀ c' ∈ l1, ∀ t, eval c' = some t → wasteOf s < wasteOf t) := by
  intro cands
  induction cands with
  | nil =>
    intro b s h
    rw [List.foldl_nil] at h
    exact Or.inl (Option.some.inj h).symm
  | cons c rest ih =>
    intro b s h
    rw [List.foldl_cons] at h
    rcases hev : eval c with _ | u
    · rw [show searchStep wasteOf eval (some b) c = some b from by
        simp [searchStep, hev]] at h
      rcases ih b s h with h' | ⟨hlt, l1, c1, l2, hsplit, hc1, hbefore⟩
      · exact Or.inl h'
      · refine Or.inr ⟨hlt, c :: l1, c1, l2, by rw [hsplit]; rfl, hc1, ?_⟩
        intro c' hc' t ht
        rcases List.mem_cons.1 hc' with rfl | hmem
        · rw [hev] at ht; cases ht
        · exact hbefore c' hmem t ht
    · by_cases hlt : wasteOf u < wasteOf b
      · rw [show searchStep wasteOf eval (some b) c = some u from by
          simp [searchStep, hev, hlt]] at h
        rcases ih u s h with rfl | ⟨hlt2, l1, c1, l2, hsplit, hc1, hbefore⟩
        · exact Or.inr ⟨hlt, [], c, rest, rfl, hev, by simp⟩
        · refine Or.inr ⟨lt_trans hlt2 hlt, c :: l1, c1, l2, by rw [hsplit]; rfl, hc1, ?_⟩
          intro c' hc' t ht
          rcases List.mem_cons.1 hc' with rfl | hmem
          · rw [hev] at ht
            obtain rfl := Option.some.inj ht
            exact hlt2
          · exact hbefore c' hmem t ht
      · rw [show searchStep wasteOf eval (some b) c = some b from by
          simp [searchStep, hev, hlt]] at h
        rcases ih b s h with h' | ⟨hlt2, l1, c1, l2, hsplit, hc1, hbefore⟩
        · exact Or.inl h'
        · refine Or.inr ⟨hlt2, c :: l1, c1, l2, by rw [hsplit]; rfl, hc1, ?_⟩
          intro c' hc' t ht
          rcases List.mem_cons.1 hc' with rfl | hmem
          · rw [hev] at ht
            obtain rfl := Option.some.inj ht
            exact lt_of_lt_of_le hlt2 (not_lt.1 hlt)
          · exact hbefore c' hmem t ht

lemma foldl_searchStep_first :
    ∀ (cands : List C) (s : S),
      cands.foldl (searchStep wasteOf eval) none = some s →
      ∃ l1 c l2, cands = l1 ++ c :: l2 ∧ eval c = some s ∧
        ∀ c' ∈ l1, ∀ t, eval c' = some t → wasteOf s < wasteOf t := by
  intro cands
  induction cands with
  | nil => intro s h; rw [List.foldl_nil] at h; cases h
  | cons c rest ih =>
    intro s h
    rw [List.foldl_cons] at h
    rcases hev : eval c with _ | u
    · rw [show searchStep wasteOf eval none c = none from by simp [searchStep, hev]] at h
      obtain ⟨l1, c1, l2, hsplit, hc1, hbefore⟩ := ih s h
      refine ⟨c :: l1, c1, l2, by rw [hsplit]; rfl, hc1, ?_⟩
      intro c' hc' t ht
      rcases List.mem_cons.1 hc' with rfl | hmem
      · rw [hev] at ht; cases ht
      · exact hbefore c' hmem t ht
    · rw [show searchStep wasteOf eval none c = some u from by simp [searchStep, hev]] at h
      rcases foldl_searchStep_first_some wasteOf eval rest u s h with
        rfl | ⟨hlt, l1, c1, l2, hsplit, hc1, hbefore⟩
      · exact ⟨[], c, rest, rfl, hev, by simp⟩
      · refine ⟨c :: l1, c1, l2, by rw [hsplit]; rfl, hc1, ?_⟩
        intro c' hc' t ht
        rcases List.mem_cons.1 hc' with rfl | hmem
        · rw [hev] at ht
          obtain rfl := Option.some.inj ht
          exact hlt
        · exact hbefore c' hmem t ht

lemma runSearch_isSome (cands : List C)
    (h : ∃ c ∈ cands, (eval c).isSome) :
    (runSearch wasteOf eval cands).isSome :=
  foldl_searchStep_isSome wasteOf eval cands none (Or.inr h)

lemma runSearch_min {cands : List C} {s : S}
    (h : runSearch wasteOf eval cands = some s) :
    ∀ c ∈ cands, ∀ t, eval c = some t → wasteOf s ≤ wasteOf t :=
  (foldl_searchStep_min wasteOf eval cands none s h).2

lemma runSearch_first {cands : List C} {s : S}
    (h : runSearch wasteOf eval cands = some s) :
    ∃ l1 c l2, cands = l1 ++ c :: l2 ∧ eval c = some s ∧
      ∀ c' ∈ l1, ∀ t, eval c' = some t → wasteOf s < wasteOf t :=
  foldl_searchStep_first wasteOf eval cands s h

lemma runSearch_mem {cands : List C} {s : S}
    (h : runSearch wasteOf eval cands = some s) :
    ∃ c ∈ cands, eval c = some s := by
  obtain ⟨l1, c, l2, hsplit, hc, _⟩ := runSearch_first wasteOf eval h
  exact ⟨c, by rw [hsplit]; simp, hc⟩

lemma foldl_searchStep_all_none :
    ∀ (cands : List C) (acc : Option S),
      (∀ c ∈ cands, eval c = none) →
      cands.foldl (searchStep wasteOf eval) acc = acc := by
  intro cands
  induction cands with
  | nil => intro acc _; rw [List.foldl_nil]
  | cons c rest ih =>
    intro acc h
    rw [List.foldl_cons,
      show searchStep wasteOf eval acc c = acc from by
        simp [searchStep, h c (List.mem_cons_self c rest)]]
    exact ih acc fun c' hc' => h c' (List.mem_cons_of_mem c hc')

lemma runSearch_eq_none {cands : List C}
    (h : ∀ c ∈ cands, eval c = none) :
    runSearch wasteOf eval cands = none :=
  foldl_searchStep_all_none wasteOf eval cands none h

end SearchLemmas

lemma mem_partsList {p : ℕ} {m : ℤ} (h : p ∈ partsList m) : 2 ≤ p ∧ (p : ℤ) ≤ m := by
  unfold partsList at h
  obtain ⟨k, hk, rfl⟩ := List.mem_map.1 h
  have hk' := List.mem_range.1 hk
  omega

lemma mem_widthCandsR {W H : ℚ} {inv : Inventory} {w fw p : ℕ}
    (h : (fw, p) ∈ widthCandsR W H inv w) :
    fw = w ∧ inv.get w ≠ 0 ∧ 1 ≤ ⌊(5000 : ℚ) / H⌋ ∧ 2 ≤ p ∧
      (p : ℤ) ≤ min ((inv.get w : ℤ) * ⌊(5000 : ℚ) / H⌋) (min (⌈W / (w : ℚ)⌉ + 5) 30) := by
  simp only [widthCandsR] at h
  split_ifs at h with h0 h1
  all_goals try exact absurd h (List.not_mem_nil _)
  all_goals
    (obtain ⟨q, hq, heq⟩ := List.mem_map.1 h
     cases heq
     exact ⟨rfl, h0, not_lt.1 h1, (mem_partsList hq).1, (mem_partsList hq).2⟩)

lemma mem_widthCandsA {inv : Inventory} {w fw p : ℕ}
    (h : (fw, p) ∈ widthCandsA inv w) :
    fw = w ∧ 2 ≤ p ∧ (p : ℤ) ≤ (inv.get w : ℤ) := by
  simp only [widthCandsA] at h
  split_ifs at h with h0
  all_goals try exact absurd h (List.not_mem_nil _)
  all_goals
    (obtain ⟨q, hq, heq⟩ := List.mem_map.1 h
     cases heq
     exact ⟨rfl, (mem_partsList hq).1, (mem_partsList hq).2⟩)

lemma mem_widthCandsB {W : ℚ} {inv : Inventory} {w fw p : ℕ}
    (h : (fw, p) ∈ widthCandsB W inv w) : fw = w ∧ 2 ≤ p := by
  simp only [widthCandsB] at h
  split_ifs at h with h0
  all_goals try exact absurd h (List.not_mem_nil _)
  all_goals
    (obtain ⟨q, hq, heq⟩ := List.mem_map.1 h
     cases heq
     exact ⟨rfl, (mem_partsList hq).1⟩)

lemma mem_candidatesR_facts {W H : ℚ} {inv : Inventory} {fw p : ℕ}
    (h : (fw, p) ∈ candidatesR W H inv) :
    (fw = 2100 ∨ fw = 2000 ∨ fw = 1900 ∨ fw = 1500) ∧ 2 ≤ p ∧ (p : ℤ) ≤ 30 ∧
      1 ≤ ⌊(5000 : ℚ) / H⌋ := by
  have key : ∀ {w : ℕ}, (fw, p) ∈ widthCandsR W H inv w →
      fw = w ∧ 2 ≤ p ∧ (p : ℤ) ≤ 30 ∧ 1 ≤ ⌊(5000 : ℚ) / H⌋ := by
    intro w hw
    obtain ⟨hfw, _, hppr, hp2, hple⟩ := mem_widthCandsR hw
    exact ⟨hfw, hp2, le_trans hple (le_trans (min_le_right _ _) (min_le_right _ _)), hppr⟩
  simp only [candidatesR, List.mem_append] at h
  rcases h with ((h | h) | h) | h
  · obtain ⟨rfl, h2, h3, h4⟩ := key h
    exact ⟨Or.inl rfl, h2, h3, h4⟩
  · obtain ⟨rfl, h2, h3, h4⟩ := key h
    exact ⟨Or.inr (Or.inl rfl), h2, h3, h4⟩
  · obtain ⟨rfl, h2, h3, h4⟩ := key h
    exact ⟨Or.inr (Or.inr (Or.inl rfl)), h2, h3, h4⟩
  · obtain ⟨rfl, h2, h3, h4⟩ := key h
    exact ⟨Or.inr (Or.inr (Or.inr rfl)), h2, h3, h4⟩

lemma mem_candidatesA_facts {inv : Inventory} {fw p : ℕ}
    (h : (fw, p) ∈ candidatesA inv) : 2 ≤ p ∧ (p : ℤ) ≤ (inv.get fw : ℤ) := by
  simp only [candidatesA, List.mem_append] at h
  rcases h with ((h | h) | h) | h
  all_goals
    obtain ⟨rfl, h2, h3⟩ := mem_widthCandsA h
  all_goals exact ⟨h2, h3⟩

lemma mem_candidatesB_facts {W : ℚ} {inv : Inventory} {fw p : ℕ}
    (h : (fw, p) ∈ candidatesB W inv) : 2 ≤ p := by
  simp only [candidatesB, List.mem_append] at h
  rcases h with ((h | h) | h) | h
  all_goals exact (mem_widthCandsB h).2

lemma evalR_some_spec {W H : ℚ} {inv : Inventory} {c : ℕ × ℕ} {s : SolutionR}
    (h : evalR W H inv c = some s) :
    s.fabricWidth = c.1 ∧ s.parts = c.2 ∧
      s.panelsPerRoll = ⌊(5000 : ℚ) / H⌋ ∧
      s.rollsNeeded = ⌈(c.2 : ℚ) / ((⌊(5000 : ℚ) / H⌋ : ℤ) : ℚ)⌉ ∧
      s.rollsNeeded ≤ (inv.get c.1 : ℤ) ∧
      s.netWidth = round1 (netWidthR W c.2) ∧
      s.outerPanelWidth = s.netWidth + 180 ∧
      s.innerPanelWidth = s.netWidth + 80 ∧
      s.outerPanelWidth ≤ (s.fabricWidth : ℚ) ∧
      s.innerPanelWidth ≤ (s.fabricWidth : ℚ) ∧
      0 ≤ s.waste ∧
      s.waste = 2 * ((s.fabricWidth : ℚ) - s.outerPanelWidth) +
        ((s.parts : ℚ) - 2) * ((s.fabricWidth : ℚ) - s.innerPanelWidth) := by
  simp only [evalR] at h
  split_ifs at h with h1 h2 h3 h4
  obtain rfl := Option.some.inj h
  push_neg at h1 h3 h4
  exact ⟨rfl, rfl, rfl, rfl, h1, rfl, rfl, rfl, h3.1, h3.2, h4, rfl⟩

lemma evalA_some_spec {W : ℚ} {c : ℕ × ℕ} {s : Solution}
    (h : evalA W c = some s) :
    s.fabricWidth = c.1 ∧ s.parts = c.2 ∧
      s.netWidth = netWidthA W c.2 ∧ s.netWidth.den = 1 ∧
      s.outerPanelWidth = s.netWidth + 180 ∧
      s.innerPanelWidth = s.netWidth + 80 ∧
      s.outerPanelWidth ≤ (c.1 : ℚ) / 10 ∧
      s.innerPanelWidth ≤ (c.1 : ℚ) / 10 ∧
      s.waste = 2 * ((c.1 : ℚ) / 10 - s.outerPanelWidth) +
        ((s.parts : ℚ) - 2) * ((c.1 : ℚ) / 10 - s.innerPanelWidth) := by
  simp only [evalA] at h
  split_ifs at h with h1 h2
  obtain rfl := Option.some.inj h
  push_neg at h1 h2
  exact ⟨rfl, rfl, rfl, h1, rfl, rfl, h2.1, h2.2, rfl⟩

lemma evalB_some_spec {W : ℚ} {inv : Inventory} {c : ℕ × ℕ} {s : Solution}
    (h : evalB W inv c = some s) :
    s.fabricWidth = c.1 ∧ s.parts = c.2 ∧
      s.netWidth = round1 (netWidthB W c.2) ∧
      s.outerPanelWidth = s.netWidth + 180 ∧
      s.innerPanelWidth = s.netWidth + 80 ∧
      s.outerPanelWidth ≤ (s.fabricWidth : ℚ) ∧
      s.innerPanelWidth ≤ (s.fabricWidth : ℚ) ∧
      0 ≤ s.waste ∧
      s.waste = 2 * ((s.fabricWidth : ℚ) - s.outerPanelWidth) +
        ((s.parts : ℚ) - 2) * ((s.fabricWidth : ℚ) - s.innerPanelWidth) := by
  simp only [evalB] at h
  split_ifs at h with h1 h2 h3 h4
  obtain rfl := Option.some.inj h
  push_neg at h3 h4
  exact ⟨rfl, rfl, rfl, rfl, rfl, h3.1, h3.2, h4, rfl⟩

lemma evalC_some_spec {W : ℚ} {inv : Inventory} {c : ℕ × ℕ} {s : Solution}
    (h : evalC W inv c = some s) :
    s.fabricWidth = c.1 ∧ s.parts = c.2 ∧
      s.netWidth = round1 (netWidthC W c.2) ∧
      s.outerPanelWidth = s.netWidth + 1800 ∧
      s.innerPanelWidth = s.netWidth + 800 ∧
      s.outerPanelWidth ≤ (s.fabricWidth : ℚ) ∧
      s.innerPanelWidth ≤ (s.fabricWidth : ℚ) ∧
      0 ≤ s.waste ∧
      s.waste = 2 * ((s.fabricWidth : ℚ) - s.outerPanelWidth) +
        ((s.parts : ℚ) - 2) * ((s.fabricWidth : ℚ) - s.innerPanelWidth) := by
  simp only [evalC] at h
  split_ifs at h with h1 h2 h3 h4
  obtain rfl := Option.some.inj h
  push_neg at h3 h4
  exact ⟨rfl, rfl, rfl, rfl, rfl, h3.1, h3.2, h4, rfl⟩

section ClaimTheorems

/- `Rat.add`, `Rat.sub`, `Rat.mul` and `Rat.inv` are `@[irreducible]` in
Batteries, which blocks `decide` on concrete rational computations; the
kernel itself reduces them fine, so they are made semireducible locally
for the concrete witnesses and counterexamples below. -/
set_option allowUnsafeReducibility true
attribute [local semireducible] Rat.add Rat.sub Rat.mul Rat.inv

/-- C1: for every input on which at least one (fabricWidth, partCount)
candidate passes all validity checks, the optimizer (both copies the claim
cites: the roll-length-aware variant and the integer-formula variant)
returns a non-null solution whose waste is less than or equal to the waste
of every valid candidate the brute-force search enumerates; among
equal-waste candidates the returned one is the first found in the fixed
iteration order (fabric widths descending 2100, 2000, 1900, 1500; part
counts ascending), the loop comparison being strict less-than, so every
valid candidate strictly earlier in the order has strictly larger waste. -/
theorem claim_C1 :
    (∀ (W H : ℚ) (inv : Inventory),
      ((∃ c ∈ candidatesR W H inv, (evalR W H inv c).isSome) →
        (findOptimalSolutionR W H inv).isSome) ∧
      (∀ s, findOptimalSolutionR W H inv = some s →
        (∀ c ∈ candidatesR W H inv, ∀ t, evalR W H inv c = some t →
          s.waste ≤ t.waste) ∧
        (∃ l1 c l2, candidatesR W H inv = l1 ++ c :: l2 ∧
          evalR W H inv c = some s ∧
          ∀ c' ∈ l1, ∀ t, evalR W H inv c' = some t → s.waste < t.waste))) ∧
    (∀ (W : ℚ) (inv : Inventory),
      ((∃ c ∈ candidatesA inv, (evalA W c).isSome) →
        (findOptimalSolutionA W inv).isSome) ∧
      (∀ s, findOptimalSolutionA W inv = some s →
        (∀ c ∈ candidatesA inv, ∀ t, evalA W c = some t → s.waste ≤ t.waste) ∧
        (∃ l1 c l2, candidatesA inv = l1 ++ c :: l2 ∧ evalA W c = some s ∧
          ∀ c' ∈ l1, ∀ t, evalA W c' = some t → s.waste < t.waste))) := by
  constructor
  · intro W H inv
    exact ⟨fun hex => runSearch_isSome _ _ _ hex,
      fun s hs => ⟨runSearch_min _ _ hs, runSearch_first _ _ hs⟩⟩
  · intro W inv
    exact ⟨fun hex => runSearch_isSome _ _ _ hex,
      fun s hs => ⟨runSearch_min _ _ hs, runSearch_first _ _ hs⟩⟩

/-- Witness for C1: both variants applied at concrete inputs with a valid
candidate; the returned waste is bounded by a later valid candidate's. -/
theorem claim_C1_witness :
    (findOptimalSolutionR 4000 1000 ⟨2, 0, 0, 0⟩).isSome ∧
    solR0.waste ≤ solR1.waste ∧
    (findOptimalSolutionA (-400) ⟨4, 0, 0, 0⟩).isSome ∧
    solA0.waste ≤ solA1.waste := by
  refine ⟨?_, ?_, ?_, ?_⟩
  · exact (claim_C1.1 4000 1000 ⟨2, 0, 0, 0⟩).1 ⟨(2100, 3), by decide, by decide⟩
  · exact ((claim_C1.1 4000 1000 ⟨2, 0, 0, 0⟩).2 solR0 (by decide)).1
      (2100, 4) (by decide) solR1 (by decide)
  · exact (claim_C1.2 (-400) ⟨4, 0, 0, 0⟩).1 ⟨(2100, 2), by decide, by decide⟩
  · exact ((claim_C1.2 (-400) ⟨4, 0, 0, 0⟩).2 solA0 (by decide)).1
      (2100, 4) (by decide) solA1 (by decide)

/-- C2: every non-null solution of every variant satisfies
`outerPanelWidth = netWidth + outerFold`, `innerPanelWidth = netWidth +
innerFold` (with that variant's fold constants), both cut widths are at
most the recorded fabricWidth, and waste is non-negative. -/
theorem claim_C2 :
    (∀ (W H : ℚ) (inv : Inventory) (s : SolutionR),
      findOptimalSolutionR W H inv = some s →
      s.outerPanelWidth = s.netWidth + 180 ∧ s.innerPanelWidth = s.netWidth + 80 ∧
      s.outerPanelWidth ≤ (s.fabricWidth : ℚ) ∧
      s.innerPanelWidth ≤ (s.fabricWidth : ℚ) ∧ 0 ≤ s.waste) ∧
    (∀ (W : ℚ) (inv : Inventory) (s : Solution),
      findOptimalSolutionA W inv = some s →
      s.outerPanelWidth = s.netWidth + 180 ∧ s.innerPanelWidth = s.netWidth + 80 ∧
      s.outerPanelWidth ≤ (s.fabricWidth : ℚ) ∧
      s.innerPanelWidth ≤ (s.fabricWidth : ℚ) ∧ 0 ≤ s.waste) ∧
    (∀ (W : ℚ) (inv : Inventory) (s : Solution),
      findOptimalSolutionB W inv = some s →
      s.outerPanelWidth = s.netWidth + 180 ∧ s.innerPanelWidth = s.netWidth + 80 ∧
      s.outerPanelWidth ≤ (s.fabricWidth : ℚ) ∧
      s.innerPanelWidth ≤ (s.fabricWidth : ℚ) ∧ 0 ≤ s.waste) ∧
    (∀ (W : ℚ) (inv : Inventory) (s : Solution),
      findOptimalSolutionC W inv = some s →
      s.outerPanelWidth = s.netWidth + 1800 ∧ s.innerPanelWidth = s.netWidth + 800 ∧
      s.outerPanelWidth ≤ (s.fabricWidth : ℚ) ∧
      s.innerPanelWidth ≤ (s.fabricWidth : ℚ) ∧ 0 ≤ s.waste) := by
  refine ⟨?_, ?_, ?_, ?_⟩
  · intro W H inv s hs
    obtain ⟨c, hc, hev⟩ := runSearch_mem _ _ hs
    obtain ⟨_, _, _, _, _, _, ho, hi, hole, hile, hw0, _⟩ := evalR_some_spec hev
    exact ⟨ho, hi, hole, hile, hw0⟩
  · intro W inv s hs
    obtain ⟨c, hc, hev⟩ := runSearch_mem _ _ hs
    obtain ⟨fw, p⟩ := c
    obtain ⟨hp2, _⟩ := mem_candidatesA_facts hc
    obtain ⟨hfw, hp, hnw, hden, ho, hi, hole, hile, hwaste⟩ := evalA_some_spec hev
    have h0 : (0 : ℚ) ≤ (fw : ℚ) := Nat.cast_nonneg _
    have hfw10 : (fw : ℚ) / 10 ≤ (fw : ℚ) := by linarith
    have hp2q : (2 : ℚ) ≤ (s.parts : ℚ) := by
      rw [hp]; exact_mod_cast hp2
    refine ⟨ho, hi, ?_, ?_, ?_⟩
    · rw [hfw]; exact le_trans hole hfw10
    · rw [hfw]; exact le_trans hile hfw10
    · rw [hwaste]
      have h1 : (0 : ℚ) ≤ (fw : ℚ) / 10 - s.outerPanelWidth := by
        have := hole; simp only at this ⊢; linarith
      have h2 : (0 : ℚ) ≤ (fw : ℚ) / 10 - s.innerPanelWidth := by
        have := hile; simp only at this ⊢; linarith
      nlinarith
  · intro W inv s hs
    obtain ⟨c, hc, hev⟩ := runSearch_mem _ _ hs
    obtain ⟨_, _, _, ho, hi, hole, hile, hw0, _⟩ := evalB_some_spec hev
    exact ⟨ho, hi, hole, hile, hw0⟩
  · intro W inv s hs
    obtain ⟨c, hc, hev⟩ := runSearch_mem _ _ hs
    obtain ⟨_, _, _, ho, hi, hole, hile, hw0, _⟩ := evalC_some_spec hev
    exact ⟨ho, hi, hole, hile, hw0⟩

/-- Witness for C2: the invariants instantiated at concrete results of all
four variants. -/
theorem claim_C2_witness :
    (solR0.outerPanelWidth = solR0.netWidth + 180 ∧
      solR0.innerPanelWidth = solR0.netWidth + 80 ∧
      solR0.outerPanelWidth ≤ (solR0.fabricWidth : ℚ) ∧
      solR0.innerPanelWidth ≤ (solR0.fabricWidth : ℚ) ∧ 0 ≤ solR0.waste) ∧
    (solA0.outerPanelWidth = solA0.netWidth + 180 ∧
      solA0.innerPanelWidth = solA0.netWidth + 80 ∧
      solA0.outerPanelWidth ≤ (solA0.fabricWidth : ℚ) ∧
      solA0.innerPanelWidth ≤ (solA0.fabricWidth : ℚ) ∧ 0 ≤ solA0.waste) ∧
    (solB0.outerPanelWidth = solB0.netWidth + 180 ∧
      solB0.innerPanelWidth = solB0.netWidth + 80 ∧
      solB0.outerPanelWidth ≤ (solB0.fabricWidth : ℚ) ∧
      solB0.innerPanelWidth ≤ (solB0.fabricWidth : ℚ) ∧ 0 ≤ solB0.waste) ∧
    (solC0.outerPanelWidth = solC0.netWidth + 1800 ∧
      solC0.innerPanelWidth = solC0.netWidth + 800 ∧
      solC0.outerPanelWidth ≤ (solC0.fabricWidth : ℚ) ∧
      solC0.innerPanelWidth ≤ (solC0.fabricWidth : ℚ) ∧ 0 ≤ solC0.waste) :=
  ⟨claim_C2.1 4000 1000 ⟨2, 0, 0, 0⟩ solR0 (by decide),
   claim_C2.2.1 (-400) ⟨2, 0, 0, 0⟩ solA0 (by decide),
   claim_C2.2.2.1 3000 ⟨2, 0, 0, 0⟩ solB0 (by decide),
   claim_C2.2.2.2 4000 ⟨2, 0, 0, 0⟩ solC0 (by decide)⟩

/-- C3 counterexample: the claim says every variant uses convention (a) or
convention (b), but the part_001:998 variant uses a third formula. On
curtain width 4000 with two rolls of 2100 mm it returns netWidth 200,
which differs from convention (a) under both fold sets and from
convention (b). -/
theorem claim_C3_counterexample :
    Option.map Solution.netWidth (findOptimalSolutionC 4000 ⟨2, 0, 0, 0⟩) = some 200 ∧
    specNetConvA 4000 2 1800 800 ≠ 200 ∧
    specNetConvA 4000 2 180 80 ≠ 200 ∧
    specNetConvB 4000 2 ≠ 200 := by decide

/-- C3 (amended): the variants use exactly three net-width conventions:
the integer-formula variant uses convention (a) with folds 180/80 and
rejects non-integer values; the roll-length-aware and part_001:1788
variants use convention (b) (`curtainWidth / p` rounded to one decimal);
the part_001:998 variant uses convention (c), subtracting the folds
(1800/800) before dividing and rounding. -/
theorem claim_C3_amended :
    (∀ (W : ℚ) (p : ℕ), netWidthA W p = specNetConvA W p 180 80) ∧
    (∀ (W : ℚ) (p : ℕ), round1 (netWidthR W p) = specNetConvB W p) ∧
    (∀ (W : ℚ) (p : ℕ), round1 (netWidthB W p) = specNetConvB W p) ∧
    (∀ (W : ℚ) (p : ℕ), round1 (netWidthC W p) = specNetConvC W p 1800 800) ∧
    (∀ (W : ℚ) (c : ℕ × ℕ), (netWidthA W c.2).den ≠ 1 → evalA W c = none) := by
  refine ⟨fun W p => rfl, fun W p => rfl, fun W p => rfl, fun W p => rfl, ?_⟩
  intro W c hden
  simp [evalA, hden]

/-- Witness for C3 (amended): the non-integer rejection applied at a
concrete candidate. -/
theorem claim_C3_amended_witness :
    (netWidthA 3 2).den ≠ 1 ∧ evalA 3 (2100, 2) = none :=
  ⟨by decide, claim_C3_amended.2.2.2.2 3 (2100, 2) (by decide)⟩

/-- C4 counterexample: in the integer-formula variant the waste is computed
against the fabric width in cm while the record stores the width in mm, so
the record's own fields do not satisfy the claimed equation. -/
theorem claim_C4_counterexample :
    findOptimalSolutionA (-400) ⟨2, 0, 0, 0⟩ = some solA0 ∧
    solA0.waste ≠ 2 * ((solA0.fabricWidth : ℚ) - solA0.outerPanelWidth) +
      ((solA0.parts : ℚ) - 2) * ((solA0.fabricWidth : ℚ) - solA0.innerPanelWidth) := by
  decide

/-- C4 (amended): for the mm-unit variants (roll-length-aware,
part_001:1788, part_001:998) the record's own fields satisfy
`waste = 2*(fabricWidth - outerPanelWidth) + (partCount - 2)*(fabricWidth -
innerPanelWidth)`; for the cm-unit integer-formula variant the equation
holds with the recorded fabricWidth divided by 10 (its cm value). -/
theorem claim_C4_amended :
    (∀ (W H : ℚ) (inv : Inventory) (s : SolutionR),
      findOptimalSolutionR W H inv = some s →
      s.waste = 2 * ((s.fabricWidth : ℚ) - s.outerPanelWidth) +
        ((s.parts : ℚ) - 2) * ((s.fabricWidth : ℚ) - s.innerPanelWidth)) ∧
    (∀ (W : ℚ) (inv : Inventory) (s : Solution),
      findOptimalSolutionB W inv = some s →
      s.waste = 2 * ((s.fabricWidth : ℚ) - s.outerPanelWidth) +
        ((s.parts : ℚ) - 2) * ((s.fabricWidth : ℚ) - s.innerPanelWidth)) ∧
    (∀ (W : ℚ) (inv : Inventory) (s : Solution),
      findOptimalSolutionC W inv = some s →
      s.waste = 2 * ((s.fabricWidth : ℚ) - s.outerPanelWidth) +
        ((s.parts : ℚ) - 2) * ((s.fabricWidth : ℚ) - s.innerPanelWidth)) ∧
    (∀ (W : ℚ) (inv : Inventory) (s : Solution),
      findOptimalSolutionA W inv = some s →
      s.waste = 2 * ((s.fabricWidth : ℚ) / 10 - s.outerPanelWidth) +
        ((s.parts : ℚ) - 2) * ((s.fabricWidth : ℚ) / 10 - s.innerPanelWidth)) := by
  refine ⟨?_, ?_, ?_, ?_⟩
  · intro W H inv s hs
    obtain ⟨c, hc, hev⟩ := runSearch_mem _ _ hs
    exact (evalR_some_spec hev).2.2.2.2.2.2.2.2.2.2.2
  · intro W inv s hs
    obtain ⟨c, hc, hev⟩ := runSearch_mem _ _ hs
    exact (evalB_some_spec hev).2.2.2.2.2.2.2.2
  · intro W inv s hs
    obtain ⟨c, hc, hev⟩ := runSearch_mem _ _ hs
    exact (evalC_some_spec hev).2.2.2.2.2.2.2.2
  · intro W inv s hs
    obtain ⟨c, hc, hev⟩ := runSearch_mem _ _ hs
    obtain ⟨hfw, hp, _, _, _, _, _, _, hwaste⟩ := evalA_some_spec hev
    rw [hwaste, hfw]

/-- Witness for C4 (amended): the equations instantiated at concrete
results of all four variants. -/
theorem claim_C4_amended_witness :
    solR0.waste = 2 * ((solR0.fabricWidth : ℚ) - solR0.outerPanelWidth) +
      ((solR0.parts : ℚ) - 2) * ((solR0.fabricWidth : ℚ) - solR0.innerPanelWidth) ∧
    solB0.waste = 2 * ((solB0.fabricWidth : ℚ) - solB0.outerPanelWidth) +
      ((solB0.parts : ℚ) - 2) * ((solB0.fabricWidth : ℚ) - solB0.innerPanelWidth) ∧
    solC0.waste = 2 * ((solC0.fabricWidth : ℚ) - solC0.outerPanelWidth) +
      ((solC0.parts : ℚ) - 2) * ((solC0.fabricWidth : ℚ) - solC0.innerPanelWidth) ∧
    solA0.waste = 2 * ((solA0.fabricWidth : ℚ) / 10 - solA0.outerPanelWidth) +
      ((solA0.parts : ℚ) - 2) * ((solA0.fabricWidth : ℚ) / 10 - solA0.innerPanelWidth) :=
  ⟨claim_C4_amended.1 4000 1000 ⟨2, 0, 0, 0⟩ solR0 (by decide),
   claim_C4_amended.2.1 3000 ⟨2, 0, 0, 0⟩ solB0 (by decide),
   claim_C4_amended.2.2.1 4000 ⟨2, 0, 0, 0⟩ solC0 (by decide),
   claim_C4_amended.2.2.2 (-400) ⟨2, 0, 0, 0⟩ solA0 (by decide)⟩

/-- C5 counterexample: invoked directly with curtain width -400 ≤ 0 and a
non-empty inventory, the integer-formula variant returns a solution, not
null. -/
theorem claim_C5_counterexample :
    ((-400 : ℚ) ≤ 0) ∧ findOptimalSolutionA (-400) ⟨2, 0, 0, 0⟩ ≠ none := by
  decide

/-- C5 (amended): with every inventory count 0, every variant returns null;
with curtain width ≤ 0 the variants that check net width positivity (the
roll-length-aware, part_001:1788 and part_001:998 copies) return null; the
integer-formula variant lacks that check and can return a record. All
variants are total functions (never throw). -/
theorem claim_C5_amended :
    (∀ (W H : ℚ), findOptimalSolutionR W H ⟨0, 0, 0, 0⟩ = none) ∧
    (∀ (W : ℚ), findOptimalSolutionA W ⟨0, 0, 0, 0⟩ = none) ∧
    (∀ (W : ℚ), findOptimalSolutionB W ⟨0, 0, 0, 0⟩ = none) ∧
    (∀ (W : ℚ), findOptimalSolutionC W ⟨0, 0, 0, 0⟩ = none) ∧
    (∀ (W H : ℚ) (inv : Inventory), W ≤ 0 → findOptimalSolutionR W H inv = none) ∧
    (∀ (W : ℚ) (inv : Inventory), W ≤ 0 → findOptimalSolutionB W inv = none) ∧
    (∀ (W : ℚ) (inv : Inventory), W ≤ 0 → findOptimalSolutionC W inv = none) := by
  refine ⟨fun W H => rfl, fun W => rfl, fun W => rfl, fun W => rfl, ?_, ?_, ?_⟩
  · intro W H inv hW
    apply runSearch_eq_none
    intro c _
    obtain ⟨fw, p⟩ := c
    have hnp : netWidthR W p ≤ 0 :=
      div_nonpos_of_nonpos_of_nonneg hW (Nat.cast_nonneg p)
    simp only [evalR]
    split_ifs <;> rfl
  · intro W inv hW
    apply runSearch_eq_none
    intro c _
    obtain ⟨fw, p⟩ := c
    have hnp : netWidthB W p ≤ 0 :=
      div_nonpos_of_nonpos_of_nonneg hW (Nat.cast_nonneg p)
    simp only [evalB]
    split_ifs <;> rfl
  · intro W inv hW
    apply runSearch_eq_none
    intro c _
    obtain ⟨fw, p⟩ := c
    have hnp : netWidthC W p ≤ 0 := by
      unfold netWidthC
      rcases Nat.eq_zero_or_pos p with rfl | hp
      · simp
      · have hp1 : (1 : ℚ) ≤ (p : ℚ) := by exact_mod_cast hp
        have hnum : W - 2 * 1800 - ((p : ℚ) - 2) * 800 ≤ 0 := by linarith
        exact div_nonpos_of_nonpos_of_nonneg hnum (Nat.cast_nonneg p)
    simp only [evalC]
    split_ifs <;> rfl
  
/-- Witness for C5 (amended): the width-nonpositive cases applied at a
concrete input. -/
theorem claim_C5_amended_witness :
    ((-5 : ℚ) ≤ 0) ∧ findOptimalSolutionR (-5) 1000 ⟨2, 0, 0, 0⟩ = none ∧
    findOptimalSolutionB (-5) ⟨2, 0, 0, 0⟩ = none ∧
    findOptimalSolutionC (-5) ⟨2, 0, 0, 0⟩ = none :=
  ⟨by norm_num,
   claim_C5_amended.2.2.2.2.1 (-5) 1000 ⟨2, 0, 0, 0⟩ (by norm_num),
   claim_C5_amended.2.2.2.2.2.1 (-5) ⟨2, 0, 0, 0⟩ (by norm_num),
   claim_C5_amended.2.2.2.2.2.2 (-5) ⟨2, 0, 0, 0⟩ (by norm_num)⟩

/-- C6 counterexample: the part_001:998 variant bounds the part count by
`max(availableRolls, min(ceil(W/fw)+5, 30))`, so with 31 rolls of 2100 mm
and curtain width 36000 it returns a solution with 31 parts, above the
claimed absolute ceiling of 30. -/
theorem claim_C6_counterexample :
    findOptimalSolutionC 36000 ⟨31, 0, 0, 0⟩ = some solC31 ∧ 30 < solC31.parts := by
  decide

/-- C6 (amended): every variant's non-null solution has partCount ≥ 2; the
30 ceiling holds for the roll-length-aware variant, whose bound is
`min(..., 30)`, but not for the variants whose bound takes
`max(availableRolls, ...)`. -/
theorem claim_C6_amended :
    (∀ (W H : ℚ) (inv : Inventory) (s : SolutionR),
      findOptimalSolutionR W H inv = some s → 2 ≤ s.parts ∧ s.parts ≤ 30) ∧
    (∀ (W : ℚ) (inv : Inventory) (s : Solution),
      findOptimalSolutionA W inv = some s → 2 ≤ s.parts) ∧
    (∀ (W : ℚ) (inv : Inventory) (s : Solution),
      findOptimalSolutionB W inv = some s → 2 ≤ s.parts) ∧
    (∀ (W : ℚ) (inv : Inventory) (s : Solution),
      findOptimalSolutionC W inv = some s → 2 ≤ s.parts) := by
  refine ⟨?_, ?_, ?_, ?_⟩
  · intro W H inv s hs
    obtain ⟨c, hc, hev⟩ := runSearch_mem _ _ hs
    obtain ⟨fw, p⟩ := c
    obtain ⟨_, hp2, hp30, _⟩ := mem_candidatesR_facts hc
    have hp := (evalR_some_spec hev).2.1
    constructor
    · rw [hp]; exact hp2
    · rw [hp]; exact_mod_cast hp30
  · intro W inv s hs
    obtain ⟨c, hc, hev⟩ := runSearch_mem _ _ hs
    obtain ⟨fw, p⟩ := c
    obtain ⟨hp2, _⟩ := mem_candidatesA_facts hc
    have hp := (evalA_some_spec hev).2.1
    rw [hp]; exact hp2
  · intro W inv s hs
    obtain ⟨c, hc, hev⟩ := runSearch_mem _ _ hs
    obtain ⟨fw, p⟩ := c
    have hp2 := mem_candidatesB_facts hc
    have hp := (evalB_some_spec hev).2.1
    rw [hp]; exact hp2
  · intro W inv s hs
    obtain ⟨c, hc, hev⟩ := runSearch_mem _ _ hs
    obtain ⟨fw, p⟩ := c
    have hp2 := mem_candidatesB_facts hc
    have hp := (evalC_some_spec hev).2.1
    rw [hp]; exact hp2

/-- Witness for C6 (amended): the part-count bounds instantiated at
concrete results of all four variants. -/
theorem claim_C6_amended_witness :
    (2 ≤ solR0.parts ∧ solR0.parts ≤ 30) ∧ 2 ≤ solA0.parts ∧
    2 ≤ solB0.parts ∧ 2 ≤ solC0.parts :=
  ⟨claim_C6_amended.1 4000 1000 ⟨2, 0, 0, 0⟩ solR0 (by decide),
   claim_C6_amended.2.1 (-400) ⟨2, 0, 0, 0⟩ solA0 (by decide),
   claim_C6_amended.2.2.1 3000 ⟨2, 0, 0, 0⟩ solB0 (by decide),
   claim_C6_amended.2.2.2 4000 ⟨2, 0, 0, 0⟩ solC0 (by decide)⟩

/-- C7: in the roll-length-aware variant every non-null solution satisfies
`panelsPerRoll = floor(5000 / curtainHeight)` with `panelsPerRoll ≥ 1`,
`rollsNeeded = ceil(partCount / panelsPerRoll)`, and `rollsNeeded` at most
the inventory count of the chosen fabric width. -/
theorem claim_C7 (W H : ℚ) (inv : Inventory) (s : SolutionR)
    (h : findOptimalSolutionR W H inv = some s) :
    s.panelsPerRoll = ⌊(5000 : ℚ) / H⌋ ∧ 1 ≤ s.panelsPerRoll ∧
    s.rollsNeeded = ⌈(s.parts : ℚ) / (s.panelsPerRoll : ℚ)⌉ ∧
    s.rollsNeeded ≤ (inv.get s.fabricWidth : ℤ) := by
  obtain ⟨c, hc, hev⟩ := runSearch_mem _ _ h
  obtain ⟨fw, p⟩ := c
  obtain ⟨_, _, _, hppr1⟩ := mem_candidatesR_facts hc
  obtain ⟨hfw, hp, hpprEq, hrn, hrnle, _⟩ := evalR_some_spec hev
  refine ⟨hpprEq, ?_, ?_, ?_⟩
  · rw [hpprEq]; exact hppr1
  · rw [hp, hpprEq]
    exact hrn
  · rw [hfw]; exact hrnle

/-- Witness for C7: instantiated at a concrete non-null result. -/
theorem claim_C7_witness :
    solR0.panelsPerRoll = ⌊(5000 : ℚ) / 1000⌋ ∧ 1 ≤ solR0.panelsPerRoll ∧
    solR0.rollsNeeded = ⌈(solR0.parts : ℚ) / (solR0.panelsPerRoll : ℚ)⌉ ∧
    solR0.rollsNeeded ≤ (Inventory.get ⟨2, 0, 0, 0⟩ solR0.fabricWidth : ℤ) :=
  claim_C7 4000 1000 ⟨2, 0, 0, 0⟩ solR0 (by decide)

/-- C8 counterexample: for curtain width 5989, part count 31, the
integer-formula variant computes netWidth = 8669/31 = 279.6..., not
302.9... as the claim states (it is nevertheless not an integer). -/
theorem claim_C8_counterexample :
    netWidthA 5989 31 = 8669 / 31 ∧ netWidthA 5989 31 < 280 ∧
    (netWidthA 5989 31).den ≠ 1 := by decide

/-- C8 (amended): with curtain width 5989 and 31 rolls of 1900 mm fabric,
candidate p = 31 is enumerated, its netWidth is 8669/31 (approximately
279.6, not an integer), so the candidate is rejected by the integrality
check; no candidate is feasible at these inputs and the search returns
null. -/
theorem claim_C8_amended :
    netWidthA 5989 31 = 8669 / 31 ∧ (netWidthA 5989 31).den ≠ 1 ∧
    (1900, 31) ∈ candidatesA ⟨0, 0, 31, 0⟩ ∧
    evalA 5989 (1900, 31) = none ∧
    findOptimalSolutionA 5989 ⟨0, 0, 31, 0⟩ = none := by decide

/-- C9: in the roll-length-aware variant, whenever curtainHeight exceeds
the fixed 5000 mm roll length, `panelsPerRoll = floor(5000 / H) = 0`, every
fabric width is skipped before any candidate is evaluated (the candidate
list is empty) and the result is null, for every width and inventory. -/
theorem claim_C9 (W H : ℚ) (inv : Inventory) (h : 5000 < H) :
    candidatesR W H inv = [] ∧ findOptimalSolutionR W H inv = none := by
  have hH : (0 : ℚ) < H := lt_trans (by norm_num) h
  have hfl : ⌊(5000 : ℚ) / H⌋ = 0 := by
    have h1 : (5000 : ℚ) / H < 1 := (div_lt_one hH).mpr h
    have h2 : (0 : ℚ) ≤ 5000 / H := div_nonneg (by norm_num) (le_of_lt hH)
    exact Int.floor_eq_zero_iff.mpr ⟨h2, h1⟩
  have hw : ∀ fw, widthCandsR W H inv fw = [] := by
    intro fw
    simp [widthCandsR, hfl]
  have hcand : candidatesR W H inv = [] := by
    unfold candidatesR
    rw [hw 2100, hw 2000, hw 1900, hw 1500]
    rfl
  refine ⟨hcand, ?_⟩
  unfold findOptimalSolutionR runSearch
  rw [hcand]
  rfl

/-- Witness for C9: applied at curtain height 6000 > 5000. -/
theorem claim_C9_witness :
    (5000 : ℚ) < 6000 ∧ candidatesR 4000 6000 ⟨2, 0, 0, 0⟩ = [] ∧
    findOptimalSolutionR 4000 6000 ⟨2, 0, 0, 0⟩ = none :=
  ⟨by norm_num,
   (claim_C9 4000 6000 ⟨2, 0, 0, 0⟩ (by norm_num)).1,
   (claim_C9 4000 6000 ⟨2, 0, 0, 0⟩ (by norm_num)).2⟩

/-- C10: each optimizer variant is a pure function of its inputs, so two
invocations with identical inputs return identical results, field for
field (both null or equal records). -/
theorem claim_C10 :
    (∀ (W H : ℚ) (inv : Inventory) (r1 r2 : Option SolutionR),
      findOptimalSolutionR W H inv = r1 → findOptimalSolutionR W H inv = r2 → r1 = r2) ∧
    (∀ (W : ℚ) (inv : Inventory) (r1 r2 : Option Solution),
      findOptimalSolutionA W inv = r1 → findOptimalSolutionA W inv = r2 → r1 = r2) ∧
    (∀ (W : ℚ) (inv : Inventory) (r1 r2 : Option Solution),
      findOptimalSolutionB W inv = r1 → findOptimalSolutionB W inv = r2 → r1 = r2) ∧
    (∀ (W : ℚ) (inv : Inventory) (r1 r2 : Option Solution),
      findOptimalSolutionC W inv = r1 → findOptimalSolutionC W inv = r2 → r1 = r2) :=
  ⟨fun _ _ _ _ _ h1 h2 => h1.symm.trans h2,
   fun _ _ _ _ h1 h2 => h1.symm.trans h2,
   fun _ _ _ _ h1 h2 => h1.symm.trans h2,
   fun _ _ _ _ h1 h2 => h1.symm.trans h2⟩

/-- Witness for C10: applied at concrete inputs for all four variants. -/
theorem claim_C10_witness :
    (some solR0 : Option SolutionR) = some solR0 ∧
    (some solA0 : Option Solution) = some solA0 ∧
    (some solB0 : Option Solution) = some solB0 ∧
    (some solC0 : Option Solution) = some solC0 :=
  ⟨claim_C10.1 4000 1000 ⟨2, 0, 0, 0⟩ _ _ (by decide) (by decide),
   claim_C10.2.1 (-400) ⟨2, 0, 0, 0⟩ _ _ (by decide) (by decide),
   claim_C10.2.2.1 3000 ⟨2, 0, 0, 0⟩ _ _ (by decide) (by decide),
   claim_C10.2.2.2 4000 ⟨2, 0, 0, 0⟩ _ _ (by decide) (by decide)⟩

end ClaimTheorems

end Curtain
